import Mathlib

/-!
Verification development for the lidar obstacle detector node
(`src/obstacle_detector_node.cpp`).

The per-frame ROS callback `lidarPointsCallback`, the dynamic-parameter
callback `dynamicParamCallback`, and the two message serializers
`transformJskBbox` / `transformAutowareObject` are translated directly from
the source.  The detector components themselves (`ObstacleDetector<PointT>`:
cloud filtering, plane segmentation, clustering, the two box fitters and the
tracker) live in `obstacle_detector.hpp`, which is not part of the sources;
they are kept abstract where possible (a `Detector` record of functions) and
modelled from the specification where a claim depends on their behaviour.

Numeric fields are `float`/`double` in the C++; they are embedded as exact
integers (`Int`), with the single real-valued ratio parameter (the IoU
threshold) embedded as an exact integer fraction.  No claim below depends on
floating-point rounding; they concern control flow, state updates, identity
management and field copying.
-/

namespace LidarObstacleDetector

/-- A 3D point / vector with exact integer coordinates (models
`pcl::PointXYZ` and `Eigen::Vector3`-style data). -/
structure Vec3 where
  x : Int
  y : Int
  z : Int
  deriving DecidableEq

/-- A quaternion (models the `Eigen::Quaternionf` stored in a `Box`). -/
structure Quat where
  w : Int
  x : Int
  y : Int
  z : Int
  deriving DecidableEq

/-- A pose: position plus orientation (models `geometry_msgs::Pose`). -/
structure Pose where
  position : Vec3
  orientation : Quat
  deriving DecidableEq

/-- A bounding box as produced by the box fitters and consumed by the
tracker: identity, centroid, extents and orientation (models the `Box`
struct of the detector library). -/
structure Box where
  id : Nat
  position : Vec3
  dimension : Vec3
  quaternion : Quat
  deriving DecidableEq

/-- An exact integer fraction, used for the IoU ratio and its threshold.
All uses keep the denominator positive. -/
structure Frac where
  num : Int
  den : Int
  deriving DecidableEq

/-- Serialized box in the jsk format (models
`jsk_recognition_msgs::BoundingBox` as filled in by `transformJskBbox`). -/
structure JskBoundingBox where
  frame_id : String
  pose : Pose
  dimensions : Vec3
  value : Int
  label : Nat
  deriving DecidableEq

/-- Serialized box in the autoware format (models
`autoware_msgs::DetectedObject` as filled in by `transformAutowareObject`). -/
structure DetectedObject where
  frame_id : String
  id : Nat
  label : String
  score : Int
  pose : Pose
  pose_reliable : Bool
  dimensions : Vec3
  valid : Bool
  deriving DecidableEq

/-- One dynamic-reconfigure snapshot (models
`lidar_obstacle_detector::obstacle_detector_Config`). -/
structure ObstacleDetectorConfig where
  use_pca_box : Bool
  use_tracking : Bool
  voxel_grid_size : Int
  roi_max_x : Int
  roi_max_y : Int
  roi_max_z : Int
  roi_min_x : Int
  roi_min_y : Int
  roi_min_z : Int
  ground_threshold : Int
  cluster_threshold : Int
  cluster_max_size : Int
  cluster_min_size : Int
  displacement_threshold : Int
  iou_threshold : Frac
  deriving DecidableEq

/-- The file-scope parameter globals written by `dynamicParamCallback` and
read by `lidarPointsCallback` (the homogeneous fourth component of the
`Eigen::Vector4f` ROI corners is the constant 1 and is dropped). -/
structure Params where
  USE_PCA_BOX : Bool
  USE_TRACKING : Bool
  VOXEL_GRID_SIZE : Int
  ROI_MAX_POINT : Vec3
  ROI_MIN_POINT : Vec3
  GROUND_THRESH : Int
  CLUSTER_THRESH : Int
  CLUSTER_MAX_SIZE : Int
  CLUSTER_MIN_SIZE : Int
  DISPLACEMENT_THRESH : Int
  IOU_THRESH : Frac
  deriving DecidableEq

/-- The mutable state of `ObstacleDetectorNode` that survives across
frames: the previous and current box sets and the monotonic id counter. -/
structure NodeState where
  prev_boxes : List Box
  curr_boxes : List Box
  obstacle_id : Nat
  deriving DecidableEq

/-- One incoming frame: the raw point cloud plus the result of the
per-frame transform lookup.  `transform = none` models
`tf2_buffer.lookupTransform` throwing `tf2::TransformException`;
`transform = some f` models a successful lookup, with `f` the action of
`tf2::doTransform` for the looked-up transform. -/
structure FrameInput where
  cloud : List Vec3
  transform : Option (Pose → Pose)

/-- Observable actions of one callback invocation, in program order. -/
inductive Event where
  | filter
  | segment (maxIterations : Nat)
  | cluster (tol minSize maxSize : Int)
  | publishGround
  | publishObstacles
  | lookupTf (ok : Bool)
  | track
  | publishBoxes
  deriving DecidableEq

/-- The external detector library (`ObstacleDetector<PointT>` from
`obstacle_detector.hpp`, not among the sources): the six operations the
node calls, kept abstract.  `segmentPlane` returns (obstacle points,
ground points); `obstacleTracking` returns the current box list with ids
reassigned from the previous list. -/
structure Detector where
  filterCloud : List Vec3 → Int → Vec3 → Vec3 → List Vec3
  segmentPlane : List Vec3 → Nat → Int → List Vec3 × List Vec3
  clustering : List Vec3 → Int → Int → Int → List (List Vec3)
  pcaBoundingBox : List Vec3 → Nat → Box
  axisAlignedBoundingBox : List Vec3 → Nat → Box
  obstacleTracking : List Box → List Box → Int → Frac → List Box

/-- Everything one callback invocation produces: the node state afterwards,
the trace of observable actions, the two published clouds, the current box
set as it stands right after the box-creation loop (the program point
between lines 174 and 176 of the source), and the published box arrays
(`none` when emission was aborted). -/
structure CallbackResult where
  state : NodeState
  trace : List Event
  groundOut : List Vec3
  obstaclesOut : List Vec3
  provisionalBoxes : List Box
  boxesOut : Option (List JskBoundingBox × List DetectedObject)

/-- `SIZE_MAX`: the largest value of the C++ `size_t` counter. -/
def SIZE_MAX : Nat := 2 ^ 64 - 1

/-- The counter update `obstacle_id_ = (obstacle_id_ < SIZE_MAX) ?
++obstacle_id_ : 0;` from line 172 of the source. -/
def nextObstacleId (n : Nat) : Nat :=
  if n < SIZE_MAX then n + 1 else 0

/-- `dynamicParamCallback` (source lines 74-88): copies every field of the
delivered configuration snapshot into the parameter globals. -/
def dynamicParamCallback (config : ObstacleDetectorConfig) : Params :=
  { USE_PCA_BOX := config.use_pca_box
    USE_TRACKING := config.use_tracking
    VOXEL_GRID_SIZE := config.voxel_grid_size
    ROI_MAX_POINT := ⟨config.roi_max_x, config.roi_max_y, config.roi_max_z⟩
    ROI_MIN_POINT := ⟨config.roi_min_x, config.roi_min_y, config.roi_min_z⟩
    GROUND_THRESH := config.ground_threshold
    CLUSTER_THRESH := config.cluster_threshold
    CLUSTER_MAX_SIZE := config.cluster_max_size
    CLUSTER_MIN_SIZE := config.cluster_min_size
    DISPLACEMENT_THRESH := config.displacement_threshold
    IOU_THRESH := config.iou_threshold }

/-- The pose built from a box before transformation (source lines
183-190). -/
def boxPose (box : Box) : Pose :=
  { position := box.position, orientation := box.quaternion }

/-- `transformJskBbox` (source lines 218-233). -/
def transformJskBbox (bbox_target_frame : String) (box : Box)
    (pose_transformed : Pose) : JskBoundingBox :=
  { frame_id := bbox_target_frame
    pose := pose_transformed
    dimensions := box.dimension
    value := 1
    label := box.id }

/-- `transformAutowareObject` (source lines 236-255). -/
def transformAutowareObject (bbox_target_frame : String) (box : Box)
    (pose_transformed : Pose) : DetectedObject :=
  { frame_id := bbox_target_frame
    id := box.id
    label := "unknown"
    score := 1
    pose := pose_transformed
    pose_reliable := true
    dimensions := box.dimension
    valid := true }

/-- The box-creation loop (source lines 159-174): one box per cluster,
fitted by `pcaBoundingBox` when `USE_PCA_BOX` is set and by
`axisAlignedBoundingBox` otherwise, each receiving the current counter
value as its provisional id; the counter is updated after every box.
Returns the created boxes in order together with the final counter. -/
def makeBoxes (d : Detector) (usePca : Bool) :
    List (List Vec3) → Nat → List Box × Nat
  | [], n => ([], n)
  | c :: rest, n =>
    let box := if usePca then d.pcaBoundingBox c n else d.axisAlignedBoundingBox c n
    let r := makeBoxes d usePca rest (nextObstacleId n)
    (box :: r.1, r.2)

/-- `lidarPointsCallback` (source lines 122-202), as a function of the
detector library, the parameter globals, the target frame name, the node
state and the incoming frame.  Mirrors the source order: filter, segment
(with the literal iteration budget 30), cluster, publish both clouds, then
the transform lookup; a failed lookup is caught and returns with no further
effect; otherwise boxes are created, optionally tracked, transformed,
published, and the current set is swapped into the previous set and
cleared. -/
def lidarPointsCallback (d : Detector) (p : Params) (bbox_target_frame : String)
    (st : NodeState) (frame : FrameInput) : CallbackResult :=
  let filtered_cloud := d.filterCloud frame.cloud p.VOXEL_GRID_SIZE p.ROI_MIN_POINT p.ROI_MAX_POINT
  let segmented_clouds := d.segmentPlane filtered_cloud 30 p.GROUND_THRESH
  let cloudClusters := d.clustering segmented_clouds.1 p.CLUSTER_THRESH p.CLUSTER_MIN_SIZE p.CLUSTER_MAX_SIZE
  let cloudTrace := [Event.filter, Event.segment 30,
    Event.cluster p.CLUSTER_THRESH p.CLUSTER_MIN_SIZE p.CLUSTER_MAX_SIZE,
    Event.publishGround, Event.publishObstacles]
  match frame.transform with
  | none =>
      { state := st
        trace := cloudTrace ++ [Event.lookupTf false]
        groundOut := segmented_clouds.2
        obstaclesOut := segmented_clouds.1
        provisionalBoxes := st.curr_boxes
        boxesOut := none }
  | some tf =>
      let fitted := makeBoxes d p.USE_PCA_BOX cloudClusters st.obstacle_id
      let curr_after_loop := st.curr_boxes ++ fitted.1
      let tracked :=
        if p.USE_TRACKING then
          d.obstacleTracking st.prev_boxes curr_after_loop p.DISPLACEMENT_THRESH p.IOU_THRESH
        else curr_after_loop
      let jsk_bboxes := tracked.map (fun b => transformJskBbox bbox_target_frame b (tf (boxPose b)))
      let autoware_objects := tracked.map (fun b => transformAutowareObject bbox_target_frame b (tf (boxPose b)))
      { state := { prev_boxes := tracked, curr_boxes := [], obstacle_id := fitted.2 }
        trace := cloudTrace ++ [Event.lookupTf true]
          ++ (if p.USE_TRACKING then [Event.track] else []) ++ [Event.publishBoxes]
        groundOut := segmented_clouds.2
        obstaclesOut := segmented_clouds.1
        provisionalBoxes := curr_after_loop
        boxesOut := some (jsk_bboxes, autoware_objects) }

/-- Modelled from the spec: the minimum extent padded onto degenerate
clusters by the box fitters, whose implementation (`obstacle_detector.hpp`)
is not among the sources; the spec fixes only that it is a small positive
value, here one integer unit. -/
def minExtent : Int := 1

/-- Modelled from the spec: the axis-aligned box fitter of
`obstacle_detector.hpp` (spec section 4.4).  Position is the midpoint of the
per-axis min/max (doubled coordinates are avoided by storing the exact
midpoint only when it is integral; to stay exact the midpoint here uses
integer division after summing, which agrees with the real midpoint on the
concrete inputs used below), dimension is the per-axis extent padded to
`minExtent`, orientation is the identity, and the supplied provisional id
is assigned. -/
def axisAlignedBoundingBox (cluster : List Vec3) (id : Nat) : Box :=
  match cluster with
  | [] =>
      { id := id
        position := ⟨0, 0, 0⟩
        dimension := ⟨minExtent, minExtent, minExtent⟩
        quaternion := ⟨1, 0, 0, 0⟩ }
  | q :: qs =>
      let minP := qs.foldl (fun acc v => ⟨min acc.x v.x, min acc.y v.y, min acc.z v.z⟩) q
      let maxP := qs.foldl (fun acc v => ⟨max acc.x v.x, max acc.y v.y, max acc.z v.z⟩) q
      { id := id
        position := ⟨(minP.x + maxP.x) / 2, (minP.y + maxP.y) / 2, (minP.z + maxP.z) / 2⟩
        dimension := ⟨max (maxP.x - minP.x) minExtent, max (maxP.y - minP.y) minExtent,
          max (maxP.z - minP.z) minExtent⟩
        quaternion := ⟨1, 0, 0, 0⟩ }

/-- Squared Euclidean distance between two centroids. -/
def dist2 (a b : Vec3) : Int :=
  (a.x - b.x) ^ 2 + (a.y - b.y) ^ 2 + (a.z - b.z) ^ 2

/-- Length of the overlap of two centered intervals, in doubled
coordinates (box with center `c` and extent `d` spans `[2c-d, 2c+d]`
after doubling, avoiding halves). -/
def interLen2 (c1 d1 c2 d2 : Int) : Int :=
  max 0 (min (2 * c1 + d1) (2 * c2 + d2) - max (2 * c1 - d1) (2 * c2 - d2))

/-- Volume of a box in doubled coordinates (8 times the real volume). -/
def boxVolume8 (b : Box) : Int :=
  (2 * b.dimension.x) * (2 * b.dimension.y) * (2 * b.dimension.z)

/-- Intersection volume of two boxes treated as axis-aligned, in doubled
coordinates (the factor 8 cancels inside the IoU ratio). -/
def interVolume8 (a b : Box) : Int :=
  interLen2 a.position.x a.dimension.x b.position.x b.dimension.x *
  (interLen2 a.position.y a.dimension.y b.position.y b.dimension.y *
   interLen2 a.position.z a.dimension.z b.position.z b.dimension.z)

/-- Modelled from the spec: the 3D IoU of two boxes treated as axis-aligned
(spec section 4.5 step 1), as an exact fraction intersection/union. -/
def iouFrac (a b : Box) : Frac :=
  ⟨interVolume8 a b, boxVolume8 a + boxVolume8 b - interVolume8 a b⟩

/-- Modelled from the spec: pair eligibility (spec section 4.5 step 2) —
displacement within the displacement threshold or IoU at least the IoU
threshold; the IoU comparison is done by cross-multiplication and an
empty union (both volumes zero) is never eligible by IoU. -/
def eligiblePair (dT : Int) (iT : Frac) (p c : Box) : Bool :=
  decide (dist2 p.position c.position ≤ dT * dT) ||
  (decide (0 < (iouFrac p c).den) &&
   decide (iT.num * (iouFrac p c).den ≤ (iouFrac p c).num * iT.den))

/-- All eligible (previous index, current index, squared displacement)
triples over the still-available boxes. -/
def candidatePairs (dT : Int) (iT : Frac) (prevA : List Box)
    (currA : List (Nat × Box)) : List (Nat × Nat × Int) :=
  (prevA.enum.map (fun pi => currA.filterMap (fun ci =>
    if eligiblePair dT iT pi.2 ci.2 then
      some (pi.1, ci.1, dist2 pi.2.position ci.2.position)
    else none))).flatten

/-- First candidate of minimal squared displacement (the fixed,
documented tie-break the spec requires for the greedy step). -/
def pickMin : List (Nat × Nat × Int) → Option (Nat × Nat × Int)
  | [] => none
  | x :: xs =>
    match pickMin xs with
    | none => some x
    | some y => if y.2.2 < x.2.2 then some y else some x

/-- Modelled from the spec: the greedy matching loop (spec section 4.5
step 3) — repeatedly take the best remaining eligible pair, record the
assignment (current index, previous id), and remove both boxes from
further consideration.  Fuel bounds the recursion by the number of
previous boxes, which shrinks every step. -/
def greedyAssign (dT : Int) (iT : Frac) :
    Nat → List Box → List (Nat × Box) → List (Nat × Nat)
  | 0, _, _ => []
  | Nat.succ fuel, prevA, currA =>
    match pickMin (candidatePairs dT iT prevA currA) with
    | none => []
    | some best =>
      match prevA[best.1]? with
      | none => []
      | some pbox =>
        (best.2.1, pbox.id) ::
          greedyAssign dT iT fuel (prevA.eraseIdx best.1)
            (currA.filter (fun x => x.1 != best.2.1))

/-- Modelled from the spec: `obstacleTracking` of `obstacle_detector.hpp`
(spec section 4.5) — matched current boxes take the matched previous
box's id, unmatched current boxes keep their provisional id, unmatched
previous boxes are dropped. -/
def obstacleTracking (prev_boxes curr_boxes : List Box) (dT : Int) (iT : Frac) :
    List Box :=
  let asg := greedyAssign dT iT prev_boxes.length prev_boxes curr_boxes.enum
  curr_boxes.enum.map (fun ib =>
    match asg.lookup ib.1 with
    | some newId => { ib.2 with id := newId }
    | none => ib.2)

/-- A detector built from the spec-modelled fitter and tracker, with the
cloud stages (filtering, segmentation, clustering — whose reference
behaviour is randomized or geometric and decides no claim below) and the
principal-axis fitter supplied as parameters. -/
def specDetector (fc : List Vec3 → Int → Vec3 → Vec3 → List Vec3)
    (sp : List Vec3 → Nat → Int → List Vec3 × List Vec3)
    (cl : List Vec3 → Int → Int → Int → List (List Vec3))
    (pca : List Vec3 → Nat → Box) : Detector :=
  { filterCloud := fc
    segmentPlane := sp
    clustering := cl
    pcaBoundingBox := pca
    axisAlignedBoundingBox := axisAlignedBoundingBox
    obstacleTracking := obstacleTracking }

/-- Cloud filter instance that keeps every point (a crop whose region
contains the whole input). -/
def identityFilterCloud : List Vec3 → Int → Vec3 → Vec3 → List Vec3 :=
  fun pts _ _ _ => pts

/-- Segmentation instance for degenerate inputs of fewer than three
points: all points are obstacle candidates, the ground set is empty
(exactly the degenerate case of spec section 4.2). -/
def allObstaclesSegmentPlane : List Vec3 → Nat → Int → List Vec3 × List Vec3 :=
  fun pts _ _ => (pts, [])

/-- Clustering instance in which every point forms its own cluster
(points mutually farther apart than the tolerance, minimum size 1). -/
def singletonClustering : List Vec3 → Int → Int → Int → List (List Vec3) :=
  fun pts _ _ _ => pts.map (fun q => [q])

/-- The concrete detector used for concrete runs below.  Every concrete
run has `USE_PCA_BOX = false`, so the principal-axis slot is never
invoked; it is filled with the axis-aligned fitter to keep the record
total. -/
def concreteDetector : Detector :=
  specDetector identityFilterCloud allObstaclesSegmentPlane singletonClustering
    axisAlignedBoundingBox

/-- Parameter globals for concrete runs with tracking enabled:
axis-aligned boxes, displacement threshold 1, IoU threshold 1. -/
def trackingParams : Params :=
  { USE_PCA_BOX := false
    USE_TRACKING := true
    VOXEL_GRID_SIZE := 1
    ROI_MAX_POINT := ⟨1000, 1000, 1000⟩
    ROI_MIN_POINT := ⟨-1000, -1000, -1000⟩
    GROUND_THRESH := 1
    CLUSTER_THRESH := 1
    CLUSTER_MAX_SIZE := 1000
    CLUSTER_MIN_SIZE := 1
    DISPLACEMENT_THRESH := 1
    IOU_THRESH := ⟨1, 1⟩ }

/-- The same parameters with tracking disabled. -/
def noTrackingParams : Params :=
  { trackingParams with USE_TRACKING := false }

/-- The target frame name used in concrete runs. -/
def baseLinkFrame : String := "base_link"

def originPoint : Vec3 := ⟨0, 0, 0⟩

def farPoint : Vec3 := ⟨100, 100, 100⟩

/-- The identity transform, as the action of a successful lookup. -/
def idTransform : Pose → Pose := fun pose => pose

/-- A frame whose cloud is one point at the origin, with a successful
transform lookup. -/
def oneClusterFrame : FrameInput :=
  { cloud := [originPoint], transform := some idTransform }

/-- A frame with one cluster at the origin and one far away, with a
successful transform lookup. -/
def twoClusterFrame : FrameInput :=
  { cloud := [originPoint, farPoint], transform := some idTransform }

/-- A frame whose transform lookup fails. -/
def noTransformFrame : FrameInput :=
  { cloud := [originPoint], transform := none }

/-- The node state right after construction (source lines 90-120):
both box sets empty, counter zero. -/
def initState : NodeState :=
  { prev_boxes := [], curr_boxes := [], obstacle_id := 0 }

/-- The state with one tracked box of id 0 at the origin and counter
value `n`. -/
def steadyState (n : Nat) : NodeState :=
  { prev_boxes := [axisAlignedBoundingBox [originPoint] 0]
    curr_boxes := []
    obstacle_id := n }

/-- States reachable from the freshly constructed node by any sequence of
frames, under any parameter snapshots and any behaviour of the external
cloud stages and principal-axis fitter, with the spec-modelled axis-aligned
fitter and tracker. -/
inductive Reachable : NodeState → Prop where
  | init : Reachable initState
  | step (st : NodeState) (fc : List Vec3 → Int → Vec3 → Vec3 → List Vec3)
      (sp : List Vec3 → Nat → Int → List Vec3 × List Vec3)
      (cl : List Vec3 → Int → Int → Int → List (List Vec3))
      (pca : List Vec3 → Nat → Box) (p : Params) (tfr : String)
      (frame : FrameInput) : Reachable st →
      Reachable (lidarPointsCallback (specDetector fc sp cl pca) p tfr st frame).state

/-- The sequence of provisional ids handed out by the box-creation loop:
`k` successive counter values starting at `n`. -/
def idSeq (n : Nat) : Nat → List Nat
  | 0 => []
  | Nat.succ k => n :: idSeq (nextObstacleId n) k

/-- The cluster list computed for a frame (the value of `cloudClusters` at
source line 135). -/
def frameClusters (d : Detector) (p : Params) (frame : FrameInput) :
    List (List Vec3) :=
  d.clustering
    (d.segmentPlane
      (d.filterCloud frame.cloud p.VOXEL_GRID_SIZE p.ROI_MIN_POINT p.ROI_MAX_POINT)
      30 p.GROUND_THRESH).1
    p.CLUSTER_THRESH p.CLUSTER_MIN_SIZE p.CLUSTER_MAX_SIZE

/-- The box set that is current for a frame after any tracking
reassignment (the value of `curr_boxes_` at source line 181). -/
def frameCurrentBoxes (d : Detector) (p : Params) (st : NodeState)
    (frame : FrameInput) : List Box :=
  let curr := st.curr_boxes ++
    (makeBoxes d p.USE_PCA_BOX (frameClusters d p frame) st.obstacle_id).1
  if p.USE_TRACKING then
    d.obstacleTracking st.prev_boxes curr p.DISPLACEMENT_THRESH p.IOU_THRESH
  else curr

/-- A configuration snapshot with invalid values: a negative ground
threshold and a cluster minimum size above the maximum size. -/
def invalidConfig : ObstacleDetectorConfig :=
  { use_pca_box := false
    use_tracking := false
    voxel_grid_size := 0
    roi_max_x := 0
    roi_max_y := 0
    roi_max_z := 0
    roi_min_x := 0
    roi_min_y := 0
    roi_min_z := 0
    ground_threshold := -1
    cluster_threshold := 0
    cluster_max_size := 5
    cluster_min_size := 10
    displacement_threshold := -1
    iou_threshold := ⟨2, 1⟩ }

theorem axisAlignedBoundingBox_id (cluster : List Vec3) (n : Nat) :
    (axisAlignedBoundingBox cluster n).id = n := by
  cases cluster <;> rfl

theorem makeBoxes_length (d : Detector) (u : Bool) (cs : List (List Vec3)) (n : Nat) :
    (makeBoxes d u cs n).1.length = cs.length := by
  induction cs generalizing n with
  | nil => rfl
  | cons c rest ih => simp [makeBoxes, ih]

theorem makeBoxes_counter (d : Detector) (u : Bool) (cs : List (List Vec3)) (n : Nat) :
    (makeBoxes d u cs n).2 = nextObstacleId^[cs.length] n := by
  induction cs generalizing n with
  | nil => rfl
  | cons c rest ih =>
      simp [makeBoxes, ih, Function.iterate_succ_apply]

theorem makeBoxes_getElem? (d : Detector) (u : Bool) (cs : List (List Vec3))
    (n : Nat) (j : Nat) :
    (makeBoxes d u cs n).1[j]? = (cs[j]?).map (fun c =>
      if u then d.pcaBoundingBox c (nextObstacleId^[j] n)
      else d.axisAlignedBoundingBox c (nextObstacleId^[j] n)) := by
  induction cs generalizing n j with
  | nil => simp [makeBoxes]
  | cons c rest ih =>
      cases j with
      | zero => simp [makeBoxes]
      | succ j => simp [makeBoxes, ih, Function.iterate_succ_apply]

theorem makeBoxes_ids (d : Detector) (u : Bool)
    (hp : ∀ c n, (d.pcaBoundingBox c n).id = n)
    (ha : ∀ c n, (d.axisAlignedBoundingBox c n).id = n)
    (cs : List (List Vec3)) (n : Nat) :
    (makeBoxes d u cs n).1.map Box.id = idSeq n cs.length := by
  induction cs generalizing n with
  | nil => rfl
  | cons c rest ih =>
      cases u <;> simp [makeBoxes, idSeq, ih, hp, ha]

theorem idSeq_eq_range' (k : Nat) (n : Nat) (h : n + k ≤ SIZE_MAX + 1) :
    idSeq n k = List.range' n k := by
  induction k generalizing n with
  | zero => rfl
  | succ j ih =>
      cases j with
      | zero => rfl
      | succ i =>
          have hn : n < SIZE_MAX := by omega
          have step : nextObstacleId n = n + 1 := by
            simp [nextObstacleId, hn]
          rw [idSeq, step, ih (n + 1) (by omega)]
          simp [List.range']

/-- C1: when the per-frame coordinate-transform lookup fails, the caught
exception path leaves the whole node state (in particular the
previous-frame box set) exactly as it was, emits no boxes, and the callback
returns normally (modelled by the total function returning a result rather
than propagating). -/
theorem c1_transform_failure_skips_frame (d : Detector) (p : Params)
    (tfr : String) (st : NodeState) (frame : FrameInput)
    (h : frame.transform = none) :
    (lidarPointsCallback d p tfr st frame).state = st ∧
    (lidarPointsCallback d p tfr st frame).boxesOut = none ∧
    Event.publishBoxes ∉ (lidarPointsCallback d p tfr st frame).trace ∧
    Event.track ∉ (lidarPointsCallback d p tfr st frame).trace := by
  simp [lidarPointsCallback, h]

theorem c1_witness :
    noTransformFrame.transform = none ∧
    ((lidarPointsCallback concreteDetector trackingParams baseLinkFrame initState
        noTransformFrame).state = initState ∧
      (lidarPointsCallback concreteDetector trackingParams baseLinkFrame initState
        noTransformFrame).boxesOut = none ∧
      Event.publishBoxes ∉ (lidarPointsCallback concreteDetector trackingParams
        baseLinkFrame initState noTransformFrame).trace ∧
      Event.track ∉ (lidarPointsCallback concreteDetector trackingParams
        baseLinkFrame initState noTransformFrame).trace) :=
  ⟨rfl, c1_transform_failure_skips_frame concreteDetector trackingParams
    baseLinkFrame initState noTransformFrame rfl⟩

/-- C9: each serializer copies the box's three dimension components and its
integer id unchanged and attaches the transformed pose; the only semantic
label field (the autoware `label` string) is the constant "unknown" and the
score/value field is the constant 1 in both formats (the jsk numeric
`label` field is the id channel of that format). -/
theorem c9_serialized_fields (tfr : String) (box : Box) (pose : Pose) :
    (transformAutowareObject tfr box pose).dimensions = box.dimension ∧
    (transformAutowareObject tfr box pose).id = box.id ∧
    (transformAutowareObject tfr box pose).pose = pose ∧
    (transformAutowareObject tfr box pose).label = "unknown" ∧
    (transformAutowareObject tfr box pose).score = 1 ∧
    (transformJskBbox tfr box pose).dimensions = box.dimension ∧
    (transformJskBbox tfr box pose).label = box.id ∧
    (transformJskBbox tfr box pose).pose = pose ∧
    (transformJskBbox tfr box pose).value = 1 :=
  ⟨rfl, rfl, rfl, rfl, rfl, rfl, rfl, rfl, rfl⟩

/-- C10: the ground-segmentation stage is always invoked with the literal
iteration budget 30; no parameter of the live configuration snapshot
influences it, and no other iteration budget ever appears in a trace. -/
theorem c10_segmentation_budget_is_30 (d : Detector) (p : Params)
    (tfr : String) (st : NodeState) (frame : FrameInput) :
    Event.segment 30 ∈ (lidarPointsCallback d p tfr st frame).trace ∧
    ∀ n, Event.segment n ∈ (lidarPointsCallback d p tfr st frame).trace → n = 30 := by
  unfold lidarPointsCallback
  cases frame.transform with
  | none => simp
  | some tf =>
      cases h : p.USE_TRACKING <;> simp [h]

theorem c10_witness :
    Event.segment 30 ∈ (lidarPointsCallback concreteDetector trackingParams
      baseLinkFrame initState oneClusterFrame).trace ∧ 30 = 30 :=
  ⟨(c10_segmentation_budget_is_30 concreteDetector trackingParams baseLinkFrame
      initState oneClusterFrame).1,
    (c10_segmentation_budget_is_30 concreteDetector trackingParams baseLinkFrame
      initState oneClusterFrame).2 30 (by decide)⟩

/-- C2: when a frame completes (the transform lookup succeeded and the
callback ran to its end), the previous-box set afterwards is exactly the
box set that was current for that frame after any tracking reassignment —
the same list from which both published box arrays were built — and the
current-box set is cleared. -/
theorem c2_swap_and_clear (d : Detector) (p : Params) (tfr : String)
    (st : NodeState) (frame : FrameInput) (tf : Pose → Pose)
    (h : frame.transform = some tf) :
    (lidarPointsCallback d p tfr st frame).state.prev_boxes =
      frameCurrentBoxes d p st frame ∧
    (lidarPointsCallback d p tfr st frame).state.curr_boxes = [] ∧
    (lidarPointsCallback d p tfr st frame).boxesOut =
      some ((frameCurrentBoxes d p st frame).map
              (fun b => transformJskBbox tfr b (tf (boxPose b))),
            (frameCurrentBoxes d p st frame).map
              (fun b => transformAutowareObject tfr b (tf (boxPose b)))) := by
  simp [lidarPointsCallback, frameCurrentBoxes, frameClusters, h]

theorem c2_witness :
    oneClusterFrame.transform = some idTransform ∧
    ((lidarPointsCallback concreteDetector trackingParams baseLinkFrame
        (steadyState 5) oneClusterFrame).state.prev_boxes =
      frameCurrentBoxes concreteDetector trackingParams (steadyState 5) oneClusterFrame ∧
    (lidarPointsCallback concreteDetector trackingParams baseLinkFrame
        (steadyState 5) oneClusterFrame).state.curr_boxes = [] ∧
    (lidarPointsCallback concreteDetector trackingParams baseLinkFrame
        (steadyState 5) oneClusterFrame).boxesOut =
      some ((frameCurrentBoxes concreteDetector trackingParams (steadyState 5)
              oneClusterFrame).map
              (fun b => transformJskBbox baseLinkFrame b (idTransform (boxPose b))),
            (frameCurrentBoxes concreteDetector trackingParams (steadyState 5)
              oneClusterFrame).map
              (fun b => transformAutowareObject baseLinkFrame b (idTransform (boxPose b))))) :=
  ⟨rfl, c2_swap_and_clear concreteDetector trackingParams baseLinkFrame
    (steadyState 5) oneClusterFrame idTransform rfl⟩

/-- C5 (counterexample): a snapshot with a negative ground threshold and
cluster minimum size 10 above maximum size 5 is accepted by the
configuration-load operation — every invalid value is stored in the
parameter globals verbatim — and the invalid sizes are then carried into
the clustering stage of the next frame, refuting rejection at
configuration-load time. -/
theorem c5_counterexample :
    invalidConfig.cluster_min_size > invalidConfig.cluster_max_size ∧
    invalidConfig.ground_threshold < 0 ∧
    (dynamicParamCallback invalidConfig).CLUSTER_MIN_SIZE = 10 ∧
    (dynamicParamCallback invalidConfig).CLUSTER_MAX_SIZE = 5 ∧
    (dynamicParamCallback invalidConfig).GROUND_THRESH = -1 ∧
    Event.cluster 0 10 5 ∈ (lidarPointsCallback concreteDetector
      (dynamicParamCallback invalidConfig) baseLinkFrame initState
      oneClusterFrame).trace := by
  decide

/-- C5 (amended): the configuration-load operation performs no validation
at all: every configuration snapshot, valid or not, is accepted, each of
its values is copied unchanged into the parameter globals, and the cluster
bounds are handed as-is to the clustering stage of every subsequent
frame. -/
theorem c5_amended_no_validation (config : ObstacleDetectorConfig) :
    (dynamicParamCallback config).USE_PCA_BOX = config.use_pca_box ∧
    (dynamicParamCallback config).USE_TRACKING = config.use_tracking ∧
    (dynamicParamCallback config).VOXEL_GRID_SIZE = config.voxel_grid_size ∧
    (dynamicParamCallback config).ROI_MAX_POINT =
      ⟨config.roi_max_x, config.roi_max_y, config.roi_max_z⟩ ∧
    (dynamicParamCallback config).ROI_MIN_POINT =
      ⟨config.roi_min_x, config.roi_min_y, config.roi_min_z⟩ ∧
    (dynamicParamCallback config).GROUND_THRESH = config.ground_threshold ∧
    (dynamicParamCallback config).CLUSTER_THRESH = config.cluster_threshold ∧
    (dynamicParamCallback config).CLUSTER_MAX_SIZE = config.cluster_max_size ∧
    (dynamicParamCallback config).CLUSTER_MIN_SIZE = config.cluster_min_size ∧
    (dynamicParamCallback config).DISPLACEMENT_THRESH = config.displacement_threshold ∧
    (dynamicParamCallback config).IOU_THRESH = config.iou_threshold ∧
    ∀ (d : Detector) (tfr : String) (st : NodeState) (frame : FrameInput),
      Event.cluster config.cluster_threshold config.cluster_min_size
        config.cluster_max_size ∈
        (lidarPointsCallback d (dynamicParamCallback config) tfr st frame).trace := by
  refine ⟨rfl, rfl, rfl, rfl, rfl, rfl, rfl, rfl, rfl, rfl, rfl, ?_⟩
  intro d tfr st frame
  unfold lidarPointsCallback
  cases frame.transform with
  | none => simp [dynamicParamCallback]
  | some tf => cases h : (dynamicParamCallback config).USE_TRACKING <;>
      simp [h, dynamicParamCallback]

/-- C3: with tracking disabled, the tracker operation is never invoked and
every box emitted that frame — in the retained state as well as in both
published arrays — carries exactly the provisional id it was created with
by the box fitter (the successive counter values of the frame). -/
theorem c3_tracking_disabled_keeps_provisional_ids (d : Detector) (p : Params)
    (tfr : String) (st : NodeState) (frame : FrameInput) (tf : Pose → Pose)
    (hp : ∀ c n, (d.pcaBoundingBox c n).id = n)
    (ha : ∀ c n, (d.axisAlignedBoundingBox c n).id = n)
    (hcurr : st.curr_boxes = [])
    (htr : p.USE_TRACKING = false)
    (hfr : frame.transform = some tf) :
    Event.track ∉ (lidarPointsCallback d p tfr st frame).trace ∧
    (lidarPointsCallback d p tfr st frame).state.prev_boxes.map Box.id =
      idSeq st.obstacle_id (frameClusters d p frame).length ∧
    ((lidarPointsCallback d p tfr st frame).boxesOut.map
        (fun out => out.2.map DetectedObject.id)) =
      some (idSeq st.obstacle_id (frameClusters d p frame).length) ∧
    ((lidarPointsCallback d p tfr st frame).boxesOut.map
        (fun out => out.1.map JskBoundingBox.label)) =
      some (idSeq st.obstacle_id (frameClusters d p frame).length) := by
  have hids := makeBoxes_ids d p.USE_PCA_BOX hp ha
    (frameClusters d p frame) st.obstacle_id
  simp [lidarPointsCallback, frameClusters, hfr, htr, hcurr] at hids ⊢
  simp [List.map_map, Function.comp_def, transformAutowareObject, transformJskBbox, hids]

theorem c3_witness :
    noTrackingParams.USE_TRACKING = false ∧
    oneClusterFrame.transform = some idTransform ∧
    (Event.track ∉ (lidarPointsCallback concreteDetector noTrackingParams
        baseLinkFrame initState oneClusterFrame).trace ∧
      (lidarPointsCallback concreteDetector noTrackingParams baseLinkFrame
          initState oneClusterFrame).state.prev_boxes.map Box.id =
        idSeq initState.obstacle_id
          (frameClusters concreteDetector noTrackingParams oneClusterFrame).length ∧
      ((lidarPointsCallback concreteDetector noTrackingParams baseLinkFrame
          initState oneClusterFrame).boxesOut.map
          (fun out => out.2.map DetectedObject.id)) =
        some (idSeq initState.obstacle_id
          (frameClusters concreteDetector noTrackingParams oneClusterFrame).length) ∧
      ((lidarPointsCallback concreteDetector noTrackingParams baseLinkFrame
          initState oneClusterFrame).boxesOut.map
          (fun out => out.1.map JskBoundingBox.label)) =
        some (idSeq initState.obstacle_id
          (frameClusters concreteDetector noTrackingParams oneClusterFrame).length)) :=
  ⟨rfl, rfl, c3_tracking_disabled_keeps_provisional_ids concreteDetector
    noTrackingParams baseLinkFrame initState oneClusterFrame idTransform
    (fun c n => axisAlignedBoundingBox_id c n)
    (fun c n => axisAlignedBoundingBox_id c n) rfl rfl rfl⟩

/-- C8: the box-creation loop appends exactly one box per cluster to the
current-frame box set, produced by the principal-axis fitter when
`USE_PCA_BOX` is set and by the axis-aligned fitter otherwise, in both
cases receiving the counter value current at that iteration as its
provisional id. -/
theorem c8_one_box_per_cluster (d : Detector) (p : Params) (tfr : String)
    (st : NodeState) (frame : FrameInput) (tf : Pose → Pose)
    (hcurr : st.curr_boxes = [])
    (hfr : frame.transform = some tf) :
    (lidarPointsCallback d p tfr st frame).provisionalBoxes.length =
      (frameClusters d p frame).length ∧
    ∀ j, (lidarPointsCallback d p tfr st frame).provisionalBoxes[j]? =
      ((frameClusters d p frame)[j]?).map (fun c =>
        if p.USE_PCA_BOX then d.pcaBoundingBox c (nextObstacleId^[j] st.obstacle_id)
        else d.axisAlignedBoundingBox c (nextObstacleId^[j] st.obstacle_id)) := by
  constructor
  · simp [lidarPointsCallback, frameClusters, hfr, hcurr, makeBoxes_length]
  · intro j
    simp [lidarPointsCallback, frameClusters, hfr, hcurr, makeBoxes_getElem?]

theorem c8_witness :
    initState.curr_boxes = [] ∧
    twoClusterFrame.transform = some idTransform ∧
    ((lidarPointsCallback concreteDetector trackingParams baseLinkFrame initState
        twoClusterFrame).provisionalBoxes.length =
      (frameClusters concreteDetector trackingParams twoClusterFrame).length ∧
    ∀ j, (lidarPointsCallback concreteDetector trackingParams baseLinkFrame
        initState twoClusterFrame).provisionalBoxes[j]? =
      ((frameClusters concreteDetector trackingParams twoClusterFrame)[j]?).map
        (fun c => if trackingParams.USE_PCA_BOX then
            concreteDetector.pcaBoundingBox c (nextObstacleId^[j] initState.obstacle_id)
          else concreteDetector.axisAlignedBoundingBox c
            (nextObstacleId^[j] initState.obstacle_id))) :=
  ⟨rfl, rfl, c8_one_box_per_cluster concreteDetector trackingParams baseLinkFrame
    initState twoClusterFrame idTransform rfl rfl⟩

/-- C4: the counter update advances the id by exactly one for every box
created while below `SIZE_MAX`, explicitly resets to 0 at `SIZE_MAX`
instead of overflowing, never leaves the valid range, and the counter
after a completed frame is exactly this update iterated once per
cluster. -/
theorem c4_counter_advance_and_reset :
    (∀ n, n < SIZE_MAX → nextObstacleId n = n + 1) ∧
    nextObstacleId SIZE_MAX = 0 ∧
    (∀ n, n ≤ SIZE_MAX → nextObstacleId n ≤ SIZE_MAX) ∧
    (∀ (d : Detector) (p : Params) (tfr : String) (st : NodeState)
      (frame : FrameInput) (tf : Pose → Pose), frame.transform = some tf →
      (lidarPointsCallback d p tfr st frame).state.obstacle_id =
        nextObstacleId^[(frameClusters d p frame).length] st.obstacle_id) := by
  refine ⟨fun n h => by simp [nextObstacleId, h], by simp [nextObstacleId],
    fun n h => ?_, fun d p tfr st frame tf hfr => ?_⟩
  · unfold nextObstacleId
    split
    · omega
    · exact Nat.zero_le _
  · simp [lidarPointsCallback, frameClusters, hfr, makeBoxes_counter]

theorem c4_witness :
    (5 < SIZE_MAX ∧ nextObstacleId 5 = 5 + 1) ∧
    nextObstacleId SIZE_MAX = 0 ∧
    (SIZE_MAX ≤ SIZE_MAX ∧ nextObstacleId SIZE_MAX ≤ SIZE_MAX) ∧
    (oneClusterFrame.transform = some idTransform ∧
      (lidarPointsCallback concreteDetector trackingParams baseLinkFrame initState
        oneClusterFrame).state.obstacle_id =
      nextObstacleId^[(frameClusters concreteDetector trackingParams
        oneClusterFrame).length] initState.obstacle_id) :=
  ⟨⟨by decide, c4_counter_advance_and_reset.1 5 (by decide)⟩,
    c4_counter_advance_and_reset.2.1,
    ⟨Nat.le_refl _, c4_counter_advance_and_reset.2.2.1 SIZE_MAX (Nat.le_refl _)⟩,
    ⟨rfl, c4_counter_advance_and_reset.2.2.2 concreteDetector trackingParams
      baseLinkFrame initState oneClusterFrame idTransform rfl⟩⟩

/-- C6: every trace begins with filtering, segmentation, clustering and
the publication of both clouds, in that order, before the transform
lookup; when the lookup fails, the published ground and obstacle sets are
exactly the segmentation results of that frame and no box publication
happens. -/
theorem c6_clouds_published_before_lookup (d : Detector) (p : Params)
    (tfr : String) (st : NodeState) (frame : FrameInput) :
    (lidarPointsCallback d p tfr st frame).trace.take 6 =
      [Event.filter, Event.segment 30,
        Event.cluster p.CLUSTER_THRESH p.CLUSTER_MIN_SIZE p.CLUSTER_MAX_SIZE,
        Event.publishGround, Event.publishObstacles,
        Event.lookupTf frame.transform.isSome] ∧
    (frame.transform = none →
      (lidarPointsCallback d p tfr st frame).groundOut =
        (d.segmentPlane (d.filterCloud frame.cloud p.VOXEL_GRID_SIZE
          p.ROI_MIN_POINT p.ROI_MAX_POINT) 30 p.GROUND_THRESH).2 ∧
      (lidarPointsCallback d p tfr st frame).obstaclesOut =
        (d.segmentPlane (d.filterCloud frame.cloud p.VOXEL_GRID_SIZE
          p.ROI_MIN_POINT p.ROI_MAX_POINT) 30 p.GROUND_THRESH).1 ∧
      Event.publishBoxes ∉ (lidarPointsCallback d p tfr st frame).trace) := by
  unfold lidarPointsCallback
  cases h : frame.transform with
  | none => simp
  | some tf => cases ht : p.USE_TRACKING <;> simp [ht]

theorem c6_witness :
    ((lidarPointsCallback concreteDetector trackingParams baseLinkFrame initState
        noTransformFrame).trace.take 6 =
      [Event.filter, Event.segment 30,
        Event.cluster trackingParams.CLUSTER_THRESH trackingParams.CLUSTER_MIN_SIZE
          trackingParams.CLUSTER_MAX_SIZE,
        Event.publishGround, Event.publishObstacles,
        Event.lookupTf noTransformFrame.transform.isSome]) ∧
    noTransformFrame.transform = none ∧
    ((lidarPointsCallback concreteDetector trackingParams baseLinkFrame initState
        noTransformFrame).groundOut =
      (concreteDetector.segmentPlane (concreteDetector.filterCloud
        noTransformFrame.cloud trackingParams.VOXEL_GRID_SIZE
        trackingParams.ROI_MIN_POINT trackingParams.ROI_MAX_POINT) 30
        trackingParams.GROUND_THRESH).2 ∧
      (lidarPointsCallback concreteDetector trackingParams baseLinkFrame initState
        noTransformFrame).obstaclesOut =
      (concreteDetector.segmentPlane (concreteDetector.filterCloud
        noTransformFrame.cloud trackingParams.VOXEL_GRID_SIZE
        trackingParams.ROI_MIN_POINT trackingParams.ROI_MAX_POINT) 30
        trackingParams.GROUND_THRESH).1 ∧
      Event.publishBoxes ∉ (lidarPointsCallback concreteDetector trackingParams
        baseLinkFrame initState noTransformFrame).trace) :=
  ⟨(c6_clouds_published_before_lookup concreteDetector trackingParams baseLinkFrame
      initState noTransformFrame).1, rfl,
    (c6_clouds_published_before_lookup concreteDetector trackingParams baseLinkFrame
      initState noTransformFrame).2 rfl⟩

theorem mem_of_getElem?_some {α : Type} (l : List α) (i : Nat) (a : α)
    (h : l[i]? = some a) : a ∈ l := by
  induction l generalizing i with
  | nil => simp at h
  | cons b bs ih =>
      cases i with
      | zero =>
          simp at h
          simp [h]
      | succ i =>
          simp only [List.getElem?_cons_succ] at h
          exact List.mem_cons_of_mem _ (ih i h)

theorem lookup_mem_of_eq_some (l : List (Nat × Nat)) (i v : Nat)
    (h : l.lookup i = some v) : (i, v) ∈ l := by
  induction l with
  | nil => simp [List.lookup] at h
  | cons hd tl ih =>
      obtain ⟨k, b⟩ := hd
      rw [List.lookup] at h
      by_cases hik : i = k
      · subst hik
        simp at h
        simp [h]
      · have hbeq : (i == k) = false := by
          simp [hik]
        rw [hbeq] at h
        exact List.mem_cons_of_mem _ (ih h)

theorem id_not_mem_eraseIdx_of_nodup (l : List Box) :
    ∀ (i : Nat) (p : Box), l[i]? = some p → (l.map Box.id).Nodup →
      p.id ∉ (l.eraseIdx i).map Box.id := by
  induction l with
  | nil => intro i p h; simp at h
  | cons b bs ih =>
      intro i p h hnd
      rw [List.map_cons, List.nodup_cons] at hnd
      cases i with
      | zero =>
          simp at h
          subst h
          simpa using hnd.1
      | succ i =>
          simp only [List.getElem?_cons_succ] at h
          have hmem : p ∈ bs := mem_of_getElem?_some _ _ _ h
          simp only [List.eraseIdx_cons_succ, List.map_cons, List.mem_cons, not_or]
          constructor
          · intro heq
            exact hnd.1 (heq ▸ List.mem_map_of_mem Box.id hmem)
          · exact ih i p h hnd.2

theorem greedyAssign_snd_mem (dT : Int) (iT : Frac) :
    ∀ (fuel : Nat) (prevA : List Box) (currA : List (Nat × Box)) (pr : Nat × Nat),
      pr ∈ greedyAssign dT iT fuel prevA currA → pr.2 ∈ prevA.map Box.id := by
  intro fuel
  induction fuel with
  | zero => intro prevA currA pr h; simp [greedyAssign] at h
  | succ fuel ih =>
      intro prevA currA pr h
      rw [greedyAssign] at h
      cases hp : pickMin (candidatePairs dT iT prevA currA) with
      | none => rw [hp] at h; simp at h
      | some best =>
          rw [hp] at h
          dsimp only at h
          cases hg : prevA[best.1]? with
          | none => rw [hg] at h; simp at h
          | some pbox =>
              rw [hg] at h
              dsimp only at h
              rcases List.mem_cons.mp h with h1 | h1
              · subst h1
                exact List.mem_map_of_mem Box.id (mem_of_getElem?_some _ _ _ hg)
              · have h2 := ih _ _ _ h1
                exact ((List.eraseIdx_sublist prevA best.1).map Box.id).subset h2

theorem greedyAssign_snd_nodup (dT : Int) (iT : Frac) :
    ∀ (fuel : Nat) (prevA : List Box) (currA : List (Nat × Box)),
      (prevA.map Box.id).Nodup →
      ((greedyAssign dT iT fuel prevA currA).map Prod.snd).Nodup := by
  intro fuel
  induction fuel with
  | zero => intro prevA currA _; simp [greedyAssign]
  | succ fuel ih =>
      intro prevA currA hnd
      rw [greedyAssign]
      cases hp : pickMin (candidatePairs dT iT prevA currA) with
      | none => simp
      | some best =>
          dsimp only
          cases hg : prevA[best.1]? with
          | none => simp
          | some pbox =>
              dsimp only
              simp only [List.map_cons]
              have hrest : ((prevA.eraseIdx best.1).map Box.id).Nodup :=
                hnd.sublist ((List.eraseIdx_sublist prevA best.1).map Box.id)
              refine List.nodup_cons.mpr ⟨?_, ih _ _ hrest⟩
              intro hmem
              rcases List.mem_map.mp hmem with ⟨pr, hpr, hpr2⟩
              have h2 := greedyAssign_snd_mem dT iT fuel _ _ pr hpr
              rw [hpr2] at h2
              exact id_not_mem_eraseIdx_of_nodup prevA best.1 pbox hg hnd h2

theorem obstacleTracking_ids_nodup (prev curr : List Box) (dT : Int) (iT : Frac)
    (hp : (prev.map Box.id).Nodup) (hc : (curr.map Box.id).Nodup)
    (hdisj : ∀ q ∈ prev.map Box.id, q ∉ curr.map Box.id) :
    ((obstacleTracking prev curr dT iT).map Box.id).Nodup := by
  unfold obstacleTracking
  refine List.pairwise_iff_getElem.mpr ?_
  intro i j hi hj hij
  have hi' : i < curr.length := by simpa using hi
  have hj' : j < curr.length := by simpa using hj
  simp only [List.getElem_map, List.getElem_enum]
  have hasg := greedyAssign_snd_nodup dT iT prev.length prev curr.enum hp
  have hmemi : curr[i].id ∈ curr.map Box.id :=
    List.mem_map_of_mem Box.id (List.getElem_mem hi')
  have hmemj : curr[j].id ∈ curr.map Box.id :=
    List.mem_map_of_mem Box.id (List.getElem_mem hj')
  cases hli : (greedyAssign dT iT prev.length prev curr.enum).lookup i with
  | some v =>
      have hv : v ∈ prev.map Box.id :=
        greedyAssign_snd_mem dT iT prev.length prev curr.enum (i, v)
          (lookup_mem_of_eq_some _ i v hli)
      cases hlj : (greedyAssign dT iT prev.length prev curr.enum).lookup j with
      | some w =>
          simp only
          intro heq
          have heq' : v = w := heq
          subst heq'
          have hij' := List.inj_on_of_nodup_map hasg
            (lookup_mem_of_eq_some _ i v hli)
            (lookup_mem_of_eq_some _ j v hlj) rfl
          have : i = j := congrArg Prod.fst hij'
          omega
      | none =>
          simp only
          intro heq
          exact hdisj v hv (heq ▸ hmemj)
  | none =>
      cases hlj : (greedyAssign dT iT prev.length prev curr.enum).lookup j with
      | some w =>
          have hw : w ∈ prev.map Box.id :=
            greedyAssign_snd_mem dT iT prev.length prev curr.enum (j, w)
              (lookup_mem_of_eq_some _ j w hlj)
          simp only
          intro heq
          exact hdisj w hw (heq ▸ hmemi)
      | none =>
          simp only
          have := List.pairwise_iff_getElem.mp hc i j (by simpa using hi')
            (by simpa using hj') hij
          simpa using this

/-- C7 (amended): as long as id-counter wraparound does not interfere —
all previous-frame ids lie below the counter and the counter stays within
range for the whole frame — the ids of the current-frame box set are
pairwise distinct at every point of the frame: as provisional counter
values after the creation loop (hence also at every prefix of it) and
after the tracker has reassigned matched boxes their previous ids. -/
theorem c7_amended_distinct_ids (d : Detector) (p : Params) (tfr : String)
    (st : NodeState) (frame : FrameInput) (tf : Pose → Pose)
    (hp : ∀ c n, (d.pcaBoundingBox c n).id = n)
    (ha : ∀ c n, (d.axisAlignedBoundingBox c n).id = n)
    (htrk : d.obstacleTracking = obstacleTracking)
    (hcurr : st.curr_boxes = [])
    (hfr : frame.transform = some tf)
    (hprev : (st.prev_boxes.map Box.id).Nodup)
    (hlt : ∀ i ∈ st.prev_boxes.map Box.id, i < st.obstacle_id)
    (hnw : st.obstacle_id + (frameClusters d p frame).length ≤ SIZE_MAX + 1) :
    ((lidarPointsCallback d p tfr st frame).provisionalBoxes.map Box.id).Nodup ∧
    ((lidarPointsCallback d p tfr st frame).state.prev_boxes.map Box.id).Nodup := by
  have hids : (makeBoxes d p.USE_PCA_BOX (frameClusters d p frame) st.obstacle_id).1.map
      Box.id = List.range' st.obstacle_id (frameClusters d p frame).length := by
    rw [makeBoxes_ids d p.USE_PCA_BOX hp ha, idSeq_eq_range' _ _ hnw]
  have hrange : (List.range' st.obstacle_id (frameClusters d p frame).length).Nodup :=
    List.nodup_range' _ _ 1 (by omega)
  have hdisj : ∀ q ∈ st.prev_boxes.map Box.id,
      q ∉ List.range' st.obstacle_id (frameClusters d p frame).length := by
    intro q hq hmem
    have h1 := hlt q hq
    rcases List.mem_range'.mp hmem with ⟨i, hik, hval⟩
    omega
  simp only [frameClusters] at hids hrange hdisj
  constructor
  · simp only [lidarPointsCallback, hfr, hcurr]
    simpa [hids] using hrange
  · cases ht : p.USE_TRACKING with
    | false =>
        simp only [lidarPointsCallback, hfr, hcurr, ht]
        simpa [hids] using hrange
    | true =>
        simp only [lidarPointsCallback, hfr, hcurr, ht, htrk]
        simp only [if_pos, List.nil_append]
        apply obstacleTracking_ids_nodup _ _ _ _ hprev
        · rw [hids]; exact hrange
        · intro q hq
          rw [hids]
          exact hdisj q hq

theorem c7_amended_witness :
    ((initState.prev_boxes.map Box.id).Nodup ∧
      (∀ i ∈ initState.prev_boxes.map Box.id, i < initState.obstacle_id) ∧
      initState.obstacle_id +
        (frameClusters concreteDetector trackingParams oneClusterFrame).length ≤
        SIZE_MAX + 1) ∧
    (((lidarPointsCallback concreteDetector trackingParams baseLinkFrame initState
        oneClusterFrame).provisionalBoxes.map Box.id).Nodup ∧
      ((lidarPointsCallback concreteDetector trackingParams baseLinkFrame initState
        oneClusterFrame).state.prev_boxes.map Box.id).Nodup) :=
  ⟨⟨by decide, by decide, by decide⟩,
    c7_amended_distinct_ids concreteDetector trackingParams baseLinkFrame initState
      oneClusterFrame idTransform
      (fun c n => axisAlignedBoundingBox_id c n)
      (fun c n => axisAlignedBoundingBox_id c n)
      rfl rfl rfl (by decide) (by decide) (by decide)⟩

theorem lidar_step_from_init :
    (lidarPointsCallback concreteDetector trackingParams baseLinkFrame initState
      oneClusterFrame).state = steadyState 1 := by
  decide

theorem lidar_step_steady (n : Nat) :
    (lidarPointsCallback concreteDetector trackingParams baseLinkFrame (steadyState n)
      oneClusterFrame).state = steadyState (nextObstacleId n) := rfl

theorem reachable_steadyState (n : Nat) :
    1 ≤ n → n ≤ SIZE_MAX → Reachable (steadyState n) := by
  induction n with
  | zero => intro h1 _; exact absurd h1 (by omega)
  | succ m ih =>
      intro _ h2
      by_cases hm : m = 0
      · subst hm
        have h := Reachable.step initState identityFilterCloud allObstaclesSegmentPlane
          singletonClustering axisAlignedBoundingBox trackingParams baseLinkFrame
          oneClusterFrame Reachable.init
        rw [show (lidarPointsCallback (specDetector identityFilterCloud
            allObstaclesSegmentPlane singletonClustering axisAlignedBoundingBox)
            trackingParams baseLinkFrame initState oneClusterFrame).state = steadyState 1
          from lidar_step_from_init] at h
        exact h
      · have hr := ih (by omega) (by omega)
        have h := Reachable.step (steadyState m) identityFilterCloud
          allObstaclesSegmentPlane singletonClustering axisAlignedBoundingBox
          trackingParams baseLinkFrame oneClusterFrame hr
        rw [show (lidarPointsCallback (specDetector identityFilterCloud
            allObstaclesSegmentPlane singletonClustering axisAlignedBoundingBox)
            trackingParams baseLinkFrame (steadyState m) oneClusterFrame).state =
            steadyState (nextObstacleId m) from lidar_step_steady m] at h
        have hnext : nextObstacleId m = m + 1 := by
          unfold nextObstacleId
          rw [if_pos (show m < SIZE_MAX by omega)]
        rwa [hnext] at h

/-- C7 (counterexample): a reachable node state — previous set holding the
still-tracked box of id 0, counter at `SIZE_MAX` after the counter has
wrapped — in which a frame with two clusters produces the current box set
with ids `SIZE_MAX` then 0, and the tracker then reassigns the first box
the previous id 0 while the second keeps provisional id 0: the
current-frame ids are not pairwise distinct. -/
theorem c7_counterexample :
    Reachable (steadyState SIZE_MAX) ∧
    ¬ (((lidarPointsCallback concreteDetector trackingParams baseLinkFrame
        (steadyState SIZE_MAX) twoClusterFrame).state.prev_boxes.map Box.id).Nodup) :=
  ⟨reachable_steadyState SIZE_MAX (by decide) (Nat.le_refl SIZE_MAX), by decide⟩

end LidarObstacleDetector
